import Mathlib

/-!
# Verification of the bolafut booking API core

Shallow embedding of the reservation/match conflict engine, booking state
machines, lazy auto-expiration, slot-grid computation and stat counters of
the `api-bolafut` backend (Express + Prisma).  Times are modelled as whole
minutes (`Int`); JavaScript `Date` arithmetic in the source only ever adds
whole minutes and compares instants, so minute-granular integers are a
faithful abstraction.  Each definition is translated from the mounted
route handlers (`src/app.js` mounts `reservations.routes.js` and
`matches.routes.js`).
-/

namespace Bolafut

/-- Reservation status (`ReservationStatus` enum in the Prisma schema). -/
inductive RStatus
  | PENDING
  | CONFIRMED
  | CANCELED
deriving DecidableEq, Repr

/-- Payment status (`PaymentStatus` enum). -/
inductive PayStatus
  | UNPAID
  | PAID
  | REFUNDED
deriving DecidableEq, Repr

/-- Match status (`MatchStatus` enum). -/
inductive MStatus
  | SCHEDULED
  | LIVE
  | FINISHED
  | CANCELED
  | EXPIRED
deriving DecidableEq, Repr

/-- Match kind (`MatchKind` enum). -/
inductive MKind
  | BOOKING
  | PELADA
deriving DecidableEq, Repr

/-- User role (`Role` enum: user / owner / arena_owner / admin). -/
inductive Role
  | user
  | owner
  | arenaOwner
  | admin
deriving DecidableEq, Repr

/-- A `Reservation` row: the fields the conflict/transition logic reads. -/
structure ReservationRec where
  id : Nat
  courtId : Nat
  userId : Nat
  startAt : Int
  endAt : Int
  status : RStatus
  paymentStatus : PayStatus
  totalPrice : Option Int
deriving DecidableEq, Repr

/-- A `Match` row together with its `MatchPresence` rows (the presence
table is keyed by `(matchId, userId)`, so we carry the list of userIds of
the presences of this match, in insertion order). -/
structure MatchRec where
  id : Nat
  title : String
  courtId : Nat
  organizerId : Nat
  date : Int
  status : MStatus
  kind : MKind
  maxPlayers : Int
  minPlayers : Int
  pricePerPlayer : Int
  startedAt : Option Int
  finishedAt : Option Int
  canceledAt : Option Int
  presences : List Nat
deriving DecidableEq, Repr

/-- `overlaps(aStart, aEnd, bStart, bEnd)` from the routes:
`aStart < bEnd && aEnd > bStart` (half-open intervals, touching endpoints
do not conflict). -/
def overlaps (aStart aEnd bStart bEnd : Int) : Bool :=
  decide (aStart < bEnd ∧ aEnd > bStart)

/-- `addMinutes(date, minutes)` from the routes. -/
def addMinutes (date minutes : Int) : Int :=
  date + minutes

/-! ## Lazy auto-expiration (`maybeAutoExpireMatch`)

The handler re-reads/updates through Prisma; its observable effect on the
match row is the pure function below, evaluated at the read instant
`now`. -/

/-- `maybeAutoExpireMatch`: if the match is `SCHEDULED`, has
`minPlayers > 0`, `now` is strictly past `date + 30min`, and the presence
count is below `minPlayers`, it becomes `EXPIRED` with
`canceledAt = now`; otherwise the stored row is returned unchanged. -/
def maybeAutoExpireMatch (m : MatchRec) (now : Int) : MatchRec :=
  if m.status ≠ MStatus.SCHEDULED then m
  else if m.minPlayers ≤ 0 then m
  else if now ≤ addMinutes m.date 30 then m
  else if m.minPlayers ≤ (m.presences.length : Int) then m
  else { m with status := MStatus.EXPIRED, canceledAt := some now }

/-! ## Slot grid (`GET /reservations/public/slots`) -/

/-- `parseHM` on the two numeric captures of the regex
`/^(\d{1,2}):(\d{2})$/`: valid when `h ≤ 23` and `mm ≤ 59`, yielding
minutes since midnight. -/
def parseHM (h mm : Nat) : Option Nat :=
  if h > 23 ∨ mm > 59 then none else some (h * 60 + mm)

/-- The midnight wrap: `if (closeMin <= openMin) closeMin += 24 * 60`. -/
def wrapClose (openMin closeMinRaw : Nat) : Nat :=
  if closeMinRaw ≤ openMin then closeMinRaw + 24 * 60 else closeMinRaw

/-- The slot loop
`for (let t = openMin; t + slotMinutes <= closeMin; t += slotMinutes)`,
emitting the pair `(t, t + slotMinutes)` of each slot.  The JavaScript
loop only terminates for a positive step, which the route's validation
(`30 ≤ slotMinutes ≤ 180`) guarantees; the guard `0 < s` makes that
explicit. -/
def slotLoop (s closeMin : Nat) (t : Nat) : List (Nat × Nat) :=
  if h : 0 < s ∧ t + s ≤ closeMin then
    (t, t + s) :: slotLoop s closeMin (t + s)
  else []
termination_by closeMin - t
decreasing_by
  have h1 := h.1
  have h2 := h.2
  omega

/-- The whole grid for one court: parse both times, wrap the close time
past midnight when needed, then run the slot loop from `openMin`. -/
def slotGrid (openHM closeHM : Nat × Nat) (slotMinutes : Nat) : List (Nat × Nat) :=
  match parseHM openHM.1 openHM.2, parseHM closeHM.1 closeHM.2 with
  | some openMin, some closeMinRaw =>
      slotLoop slotMinutes (wrapClose openMin closeMinRaw) openMin
  | _, _ => []

/-! ## Player stat counters (`POST /matches/:id/stats/event`) -/

/-- Stat event type: goal or assist. -/
inductive StatType
  | goal
  | assist
deriving DecidableEq, Repr

/-- Stat event mode: official or unofficial track. -/
inductive StatMode
  | official
  | unofficial
deriving DecidableEq, Repr

/-- One stat event: which counter of the `(matchId, userId)` row it
touches and the signed delta. -/
structure StatEvent where
  type : StatType
  mode : StatMode
  delta : Int
deriving DecidableEq, Repr

/-- The four counters of a `MatchPlayerStat` row. -/
structure MatchPlayerStat where
  goalsOfficial : Int
  assistsOfficial : Int
  goalsUnofficial : Int
  assistsUnofficial : Int
deriving DecidableEq, Repr

/-- `createdBase`: the row created when no `(matchId, userId)` row exists
yet — zeros, with the targeted counter set to `Math.max(0, delta)`. -/
def createdBase (e : StatEvent) : MatchPlayerStat :=
  let v := max 0 e.delta
  match e.type, e.mode with
  | StatType.goal, StatMode.official => ⟨v, 0, 0, 0⟩
  | StatType.assist, StatMode.official => ⟨0, v, 0, 0⟩
  | StatType.goal, StatMode.unofficial => ⟨0, 0, v, 0⟩
  | StatType.assist, StatMode.unofficial => ⟨0, 0, 0, v⟩

/-- The `update` branch of the upsert: increment the targeted counter by
the delta. -/
def statIncrement (s : MatchPlayerStat) (e : StatEvent) : MatchPlayerStat :=
  match e.type, e.mode with
  | StatType.goal, StatMode.official => { s with goalsOfficial := s.goalsOfficial + e.delta }
  | StatType.assist, StatMode.official => { s with assistsOfficial := s.assistsOfficial + e.delta }
  | StatType.goal, StatMode.unofficial => { s with goalsUnofficial := s.goalsUnofficial + e.delta }
  | StatType.assist, StatMode.unofficial => { s with assistsUnofficial := s.assistsUnofficial + e.delta }

/-- The `fixed` update that follows the upsert: every counter is clamped
with `Math.max(0, ·)` using the post-upsert values. -/
def clampStat (s : MatchPlayerStat) : MatchPlayerStat :=
  ⟨max 0 s.goalsOfficial, max 0 s.assistsOfficial,
   max 0 s.goalsUnofficial, max 0 s.assistsUnofficial⟩

/-- The stored row after one stat event: upsert (create `createdBase` or
increment), then clamp. -/
def statEventApply (existing : Option MatchPlayerStat) (e : StatEvent) : MatchPlayerStat :=
  clampStat (match existing with
    | none => createdBase e
    | some s => statIncrement s e)

/-- The stored row after a sequence of stat events, starting from no row. -/
def runStatEvents (es : List StatEvent) : Option MatchPlayerStat :=
  es.foldl (fun acc e => some (statEventApply acc e)) none

/-- All four counters of a row are nonnegative. -/
def statNonneg (s : MatchPlayerStat) : Prop :=
  0 ≤ s.goalsOfficial ∧ 0 ≤ s.assistsOfficial ∧
  0 ≤ s.goalsUnofficial ∧ 0 ≤ s.assistsUnofficial

/-- Read the targeted counter of an event from a row. -/
def statCounter (s : MatchPlayerStat) (e : StatEvent) : Int :=
  match e.type, e.mode with
  | StatType.goal, StatMode.official => s.goalsOfficial
  | StatType.assist, StatMode.official => s.assistsOfficial
  | StatType.goal, StatMode.unofficial => s.goalsUnofficial
  | StatType.assist, StatMode.unofficial => s.assistsUnofficial

/-! ## Join (`POST /matches/:id/join`)

The handler, after loading the match: 409 if the status is terminal for
joining; then the capacity gate (`maxPlayers > 0 && joinedNow >= maxPlayers`
→ 409 "Partida lotada."); then `findFirst` on `(matchId, userId)` and a
`create` only when no presence row exists; finally the updated match is
returned. -/

/-- Result of the join handler on one match row. -/
inductive JoinResult
  | statusConflict (s : MStatus)
  | full
  | ok (m : MatchRec)
deriving DecidableEq, Repr

/-- `POST /matches/:id/join` on a loaded match row, in the source's check
order: terminal status, then capacity, then the idempotent presence
upsert. -/
def joinMatch (m : MatchRec) (userId : Nat) : JoinResult :=
  if m.status = MStatus.CANCELED ∨ m.status = MStatus.EXPIRED ∨
      m.status = MStatus.FINISHED then
    JoinResult.statusConflict m.status
  else if 0 < m.maxPlayers ∧ m.maxPlayers ≤ (m.presences.length : Int) then
    JoinResult.full
  else if userId ∈ m.presences then
    JoinResult.ok m
  else
    JoinResult.ok { m with presences := m.presences ++ [userId] }

/-! ## Match status transitions
(`PATCH /matches/:id/start|finish|cancel|uncancel|expire`)

After the `canManageMatch` permission check, each handler performs an
unconditional `prisma.match.update` — none of them inspects the current
status. -/

/-- `PATCH /matches/:id/start`: set `LIVE`, `startedAt = now`. -/
def startMatch (m : MatchRec) (now : Int) : MatchRec :=
  { m with status := MStatus.LIVE, startedAt := some now }

/-- `PATCH /matches/:id/finish`: set `FINISHED`, `finishedAt = now`. -/
def finishMatch (m : MatchRec) (now : Int) : MatchRec :=
  { m with status := MStatus.FINISHED, finishedAt := some now }

/-- `PATCH /matches/:id/cancel`: set `CANCELED`, `canceledAt = now`. -/
def cancelMatch (m : MatchRec) (now : Int) : MatchRec :=
  { m with status := MStatus.CANCELED, canceledAt := some now }

/-- `PATCH /matches/:id/uncancel`: set `SCHEDULED`, clear `canceledAt`. -/
def uncancelMatch (m : MatchRec) : MatchRec :=
  { m with status := MStatus.SCHEDULED, canceledAt := none }

/-- `PATCH /matches/:id/expire`: set `EXPIRED`, `canceledAt = now`. -/
def expireMatch (m : MatchRec) (now : Int) : MatchRec :=
  { m with status := MStatus.EXPIRED, canceledAt := some now }

/-! ## Reservation transitions
(`PATCH /reservations/:id/confirm|paid|cancel-owner|cancel` of the
mounted `reservations.routes.js`)

Each handler returns an HTTP status and the stored row after the request
(the row is unchanged on every non-200 answer). -/

/-- `PATCH /reservations/:id/confirm`: only `arena_owner`/`admin`; a
non-admin must own the court's arena; then only a `PENDING` reservation
may become `CONFIRMED`, anything else answers 409. -/
def confirmReservation (role : Role) (ownsArena : Bool)
    (r : ReservationRec) : Nat × ReservationRec :=
  if ¬(role = Role.arenaOwner ∨ role = Role.admin) then (403, r)
  else if role ≠ Role.admin ∧ ownsArena = false then (403, r)
  else if r.status ≠ RStatus.PENDING then (409, r)
  else (200, { r with status := RStatus.CONFIRMED })

/-- `PATCH /reservations/:id/paid`: only `arena_owner`/`admin`; a
non-admin must own the court's arena; then only a `CONFIRMED` reservation
may be marked `PAID`, anything else answers 409. -/
def paidReservation (role : Role) (ownsArena : Bool)
    (r : ReservationRec) : Nat × ReservationRec :=
  if ¬(role = Role.arenaOwner ∨ role = Role.admin) then (403, r)
  else if role ≠ Role.admin ∧ ownsArena = false then (403, r)
  else if r.status ≠ RStatus.CONFIRMED then (409, r)
  else (200, { r with paymentStatus := PayStatus.PAID })

/-- `PATCH /reservations/:id/cancel-owner`: owner-side cancel, refused
when already `CANCELED`. -/
def cancelOwnerReservation (role : Role) (ownsArena : Bool)
    (r : ReservationRec) : Nat × ReservationRec :=
  if ¬(role = Role.arenaOwner ∨ role = Role.admin) then (403, r)
  else if role ≠ Role.admin ∧ ownsArena = false then (403, r)
  else if r.status = RStatus.CANCELED then (409, r)
  else (200, { r with status := RStatus.CANCELED })

/-- `PATCH /reservations/:id/cancel`: the reserving user (or an admin)
cancels; no current-status guard. -/
def cancelSelfReservation (callerId : Nat) (role : Role)
    (r : ReservationRec) : Nat × ReservationRec :=
  if r.userId ≠ callerId ∧ role ≠ Role.admin then (403, r)
  else (200, { r with status := RStatus.CANCELED })

/-! ## Database state and the creation handlers -/

/-- A `User` row (the fields the route `select`s ever read). -/
structure UserRec where
  id : Nat
  name : String
  email : String
  role : Role
deriving DecidableEq, Repr

/-- A `Court` row. -/
structure CourtRec where
  id : Nat
  arenaId : Nat
  pricePerHour : Option Int
deriving DecidableEq, Repr

/-- An `Arena` row; `openTime`/`closeTime` are nullable `HH:MM` strings,
modelled by their two numeric captures. -/
structure ArenaRec where
  id : Nat
  slug : String
  ownerId : Nat
  openTime : Option (Nat × Nat)
  closeTime : Option (Nat × Nat)
deriving DecidableEq, Repr

/-- The database: the single source of truth the routes read and write.
`nextId` models id generation for created rows. -/
structure DB where
  users : List UserRec
  arenas : List ArenaRec
  courts : List CourtRec
  reservations : List ReservationRec
  matchList : List MatchRec
  nextId : Nat
deriving DecidableEq, Repr

/-- The `prisma.reservation.findFirst` conflict query shared by the
creation paths: same court, `status != CANCELED`, `startAt < end`,
`endAt > start`. -/
def findConflictReservation (db : DB) (courtId : Nat)
    (startAt endAt : Int) : Option ReservationRec :=
  db.reservations.find? (fun r =>
    decide (r.courtId = courtId ∧ r.status ≠ RStatus.CANCELED ∧
      r.startAt < endAt ∧ r.endAt > startAt))

/-- The `nearMatches` query of the match-creation paths: same court and
`date` within the widened window — note: no status filter. -/
def nearMatches (db : DB) (courtId : Nat)
    (windowStart windowEnd : Int) : List MatchRec :=
  db.matchList.filter (fun m =>
    decide (m.courtId = courtId ∧ windowStart ≤ m.date ∧ m.date ≤ windowEnd))

/-- The in-JavaScript `nearMatches.find(...)` step: the first near match
whose 60-minute window overlaps the proposed interval. -/
def findConflictMatch (db : DB) (courtId : Nat)
    (matchStart matchEnd : Int) : Option MatchRec :=
  (nearMatches db courtId (addMinutes matchStart (-180))
      (addMinutes matchEnd 180)).find? (fun m =>
    overlaps matchStart matchEnd m.date (addMinutes m.date 60))

/-- Result of a match/pelada creation request. -/
inductive CreateMatchResult
  | forbidden
  | badRequest
  | conflictReservation (r : ReservationRec)
  | conflictMatch (m : MatchRec)
  | created (m : MatchRec)
deriving DecidableEq, Repr

/-- `POST /matches`: role gate, court lookup (400 when absent),
arena-owner restriction, then the reservation conflict check followed by
the match conflict check; on success a `SCHEDULED` match with a 60-minute
window is inserted and answered with 201. -/
def postMatch (db : DB) (user : UserRec) (ownsCourt : Bool)
    (courtId : Nat) (date : Int) (title : String) (kind : MKind)
    (maxPlayers minPlayers pricePerPlayer : Int) :
    CreateMatchResult × DB :=
  if ¬(user.role = Role.owner ∨ user.role = Role.arenaOwner ∨
      user.role = Role.admin) then
    (CreateMatchResult.forbidden, db)
  else if ¬ db.courts.any (fun c => c.id == courtId) then
    (CreateMatchResult.badRequest, db)
  else if user.role = Role.arenaOwner ∧ ownsCourt = false then
    (CreateMatchResult.forbidden, db)
  else
    let matchEnd := addMinutes date 60
    match findConflictReservation db courtId date matchEnd with
    | some r => (CreateMatchResult.conflictReservation r, db)
    | none =>
      match findConflictMatch db courtId date matchEnd with
      | some m => (CreateMatchResult.conflictMatch m, db)
      | none =>
        let newM : MatchRec :=
          { id := db.nextId, title := title, courtId := courtId,
            organizerId := user.id, date := date,
            status := MStatus.SCHEDULED, kind := kind,
            maxPlayers := maxPlayers, minPlayers := minPlayers,
            pricePerPlayer := pricePerPlayer,
            startedAt := none, finishedAt := none, canceledAt := none,
            presences := [] }
        (CreateMatchResult.created newM,
         { db with matchList := db.matchList ++ [newM],
                   nextId := db.nextId + 1 })

/-- `prisma.matchPresence.create({ matchId, userId })`, reflected into
the nested presence list of the match row. -/
def addPresence (db : DB) (matchId userId : Nat) : DB :=
  { db with matchList := db.matchList.map (fun m =>
      if m.id = matchId then { m with presences := m.presences ++ [userId] }
      else m) }

/-- `POST /matches/peladas`: any authenticated user; court lookup, the
same two conflict checks as `POST /matches`, creation with
`kind = PELADA`, then the creator's presence row is inserted and the
re-fetched match is answered with 201. -/
def postPelada (db : DB) (user : UserRec) (courtId : Nat) (date : Int)
    (title : String) (maxPlayers minPlayers pricePerPlayer : Int) :
    CreateMatchResult × DB :=
  if ¬ db.courts.any (fun c => c.id == courtId) then
    (CreateMatchResult.badRequest, db)
  else
    let matchEnd := addMinutes date 60
    match findConflictReservation db courtId date matchEnd with
    | some r => (CreateMatchResult.conflictReservation r, db)
    | none =>
      match findConflictMatch db courtId date matchEnd with
      | some m => (CreateMatchResult.conflictMatch m, db)
      | none =>
        let newM : MatchRec :=
          { id := db.nextId, title := title, courtId := courtId,
            organizerId := user.id, date := date,
            status := MStatus.SCHEDULED, kind := MKind.PELADA,
            maxPlayers := maxPlayers, minPlayers := minPlayers,
            pricePerPlayer := pricePerPlayer,
            startedAt := none, finishedAt := none, canceledAt := none,
            presences := [] }
        let db1 : DB :=
          { db with matchList := db.matchList ++ [newM],
                    nextId := db.nextId + 1 }
        let db2 := addPresence db1 newM.id user.id
        let updated :=
          (db2.matchList.find? (fun m => m.id == newM.id)).getD newM
        (CreateMatchResult.created updated, db2)

/-- `POST /reservations` of the mounted `reservations.routes.js`:
validate `startAt < endAt`, then check for a conflicting non-canceled
reservation on the same court — and only reservations: this handler runs
no match query — then insert.  The court foreign key is enforced by the
storage layer (creation fails, leaving the database unchanged, when
`courtId` does not exist). -/
def postReservation (db : DB) (userId courtId : Nat)
    (startAt endAt : Int) (totalPrice : Option Int) : Nat × DB :=
  if ¬(startAt < endAt) then (400, db)
  else
    match findConflictReservation db courtId startAt endAt with
    | some _ => (409, db)
    | none =>
      if ¬ db.courts.any (fun c => c.id == courtId) then (400, db)
      else
        let newR : ReservationRec :=
          { id := db.nextId, courtId := courtId, userId := userId,
            startAt := startAt, endAt := endAt,
            status := RStatus.PENDING, paymentStatus := PayStatus.UNPAID,
            totalPrice := totalPrice }
        (200, { db with reservations := db.reservations ++ [newR],
                        nextId := db.nextId + 1 })

/-- Replace the reservation row with the given id by the handler's
output row (`prisma.reservation.update` scoped by primary key). -/
def updateReservation (db : DB) (id : Nat)
    (f : ReservationRec → ReservationRec) : DB :=
  { db with reservations := db.reservations.map (fun r =>
      if r.id = id then f r else r) }

/-- Replace the match row with the given id by the handler's output row
(`prisma.match.update` scoped by primary key). -/
def updateMatch (db : DB) (id : Nat) (f : MatchRec → MatchRec) : DB :=
  { db with matchList := db.matchList.map (fun m =>
      if m.id = id then f m else m) }

/-- `POST /matches/:id/join` at database level: load the match, run the
join checks, and insert the presence row only in the final branch. -/
def joinStep (db : DB) (matchId userId : Nat) : DB :=
  match db.matchList.find? (fun m => m.id == matchId) with
  | none => db
  | some m =>
    match joinMatch m userId with
    | JoinResult.ok m' => updateMatch db matchId (fun _ => m')
    | _ => db

/-- `DELETE /matches/:id/join`:
`prisma.matchPresence.deleteMany({ matchId, userId })`. -/
def leaveStep (db : DB) (matchId userId : Nat) : DB :=
  updateMatch db matchId (fun m =>
    { m with presences := m.presences.filter (fun u => u ≠ userId) })

/-! ## Reachable database states

All reachable states, starting from any state holding no reservations
and no matches (users, arenas and courts are managed by routes outside
this core) and closed under the API operations above.  Transition
endpoints replace the row by the handler's output row; a handler that
answers with an error returns the row unchanged, so applying the step
also covers the rejected requests. -/
inductive Reachable : DB → Prop
  | init (db : DB) (hr : db.reservations = []) (hm : db.matchList = []) :
      Reachable db
  | stepPostReservation (db : DB) (u c : Nat) (s e : Int)
      (tp : Option Int) (h : Reachable db) :
      Reachable (postReservation db u c s e tp).2
  | stepPostMatch (db : DB) (user : UserRec) (oc : Bool) (c : Nat)
      (d : Int) (t : String) (k : MKind) (mx mn pp : Int)
      (h : Reachable db) :
      Reachable (postMatch db user oc c d t k mx mn pp).2
  | stepPostPelada (db : DB) (user : UserRec) (c : Nat) (d : Int)
      (t : String) (mx mn pp : Int) (h : Reachable db) :
      Reachable (postPelada db user c d t mx mn pp).2
  | stepConfirm (db : DB) (id : Nat) (role : Role) (owns : Bool)
      (h : Reachable db) :
      Reachable (updateReservation db id
        (fun r => (confirmReservation role owns r).2))
  | stepPaid (db : DB) (id : Nat) (role : Role) (owns : Bool)
      (h : Reachable db) :
      Reachable (updateReservation db id
        (fun r => (paidReservation role owns r).2))
  | stepCancelOwner (db : DB) (id : Nat) (role : Role) (owns : Bool)
      (h : Reachable db) :
      Reachable (updateReservation db id
        (fun r => (cancelOwnerReservation role owns r).2))
  | stepCancelSelf (db : DB) (id caller : Nat) (role : Role)
      (h : Reachable db) :
      Reachable (updateReservation db id
        (fun r => (cancelSelfReservation caller role r).2))
  | stepStart (db : DB) (id : Nat) (now : Int) (h : Reachable db) :
      Reachable (updateMatch db id (fun m => startMatch m now))
  | stepFinish (db : DB) (id : Nat) (now : Int) (h : Reachable db) :
      Reachable (updateMatch db id (fun m => finishMatch m now))
  | stepCancelMatch (db : DB) (id : Nat) (now : Int) (h : Reachable db) :
      Reachable (updateMatch db id (fun m => cancelMatch m now))
  | stepUncancel (db : DB) (id : Nat) (h : Reachable db) :
      Reachable (updateMatch db id (fun m => uncancelMatch m))
  | stepExpire (db : DB) (id : Nat) (now : Int) (h : Reachable db) :
      Reachable (updateMatch db id (fun m => expireMatch m now))
  | stepAutoExpire (db : DB) (id : Nat) (now : Int) (h : Reachable db) :
      Reachable (updateMatch db id (fun m => maybeAutoExpireMatch m now))
  | stepJoin (db : DB) (id u : Nat) (h : Reachable db) :
      Reachable (joinStep db id u)
  | stepLeave (db : DB) (id u : Nat) (h : Reachable db) :
      Reachable (leaveStep db id u)

/-! ## Public read paths (`GET /matches/peladas`,
`GET /reservations/public/slots`) -/

/-- User lookup by id (relation resolution of an `include`). -/
def lookupUser (db : DB) (uid : Nat) : Option UserRec :=
  db.users.find? (fun u => u.id == uid)

/-- Court lookup by id. -/
def lookupCourt (db : DB) (cid : Nat) : Option CourtRec :=
  db.courts.find? (fun c => c.id == cid)

/-- Arena lookup by id. -/
def lookupArena (db : DB) (aid : Nat) : Option ArenaRec :=
  db.arenas.find? (fun a => a.id == aid)

/-- The `includePublic` user projection:
`select: { id, name, role }` — no email. -/
structure PublicUserView where
  id : Nat
  name : String
  role : Role
deriving DecidableEq, Repr

/-- Project a user row to its public shape. -/
def toPublicUser (u : UserRec) : PublicUserView :=
  { id := u.id, name := u.name, role := u.role }

/-- A match as serialized by the public peladas listing
(`includePublic`): match fields plus public presences and organizer. -/
structure PublicMatchView where
  id : Nat
  title : String
  courtId : Nat
  date : Int
  status : MStatus
  kind : MKind
  maxPlayers : Int
  minPlayers : Int
  pricePerPlayer : Int
  canceledAt : Option Int
  presences : List (Option PublicUserView)
  organizer : Option PublicUserView
deriving DecidableEq, Repr

/-- Serialize one match with the `includePublic` projection. -/
def publicMatchView (db : DB) (m : MatchRec) : PublicMatchView :=
  { id := m.id, title := m.title, courtId := m.courtId, date := m.date,
    status := m.status, kind := m.kind, maxPlayers := m.maxPlayers,
    minPlayers := m.minPlayers, pricePerPlayer := m.pricePerPlayer,
    canceledAt := m.canceledAt,
    presences := m.presences.map (fun uid =>
      (lookupUser db uid).map toPublicUser),
    organizer := (lookupUser db m.organizerId).map toPublicUser }

/-- The `where` clause of `GET /matches/peladas`: kind `PELADA`,
optional court filter, optional date range, optional arena (by id we
fold into the slug case: the arena filter resolves `court.arena`). -/
def peladasWhere (db : DB) (courtId? : Option Nat) (slug? : Option String)
    (fromT toT : Option Int) (m : MatchRec) : Bool :=
  m.kind == MKind.PELADA &&
  (match courtId? with
   | none => true
   | some c => m.courtId == c) &&
  (match fromT with
   | none => true
   | some f => decide (f ≤ m.date)) &&
  (match toT with
   | none => true
   | some tt => decide (m.date ≤ tt)) &&
  (match slug? with
   | none => true
   | some sl => ((lookupCourt db m.courtId).bind
       (fun ct => lookupArena db ct.arenaId)).any (fun a => a.slug == sl))

/-- `GET /matches/peladas`: filter, order by date, take 200, apply the
lazy auto-expire to each row and serialize with `includePublic`. -/
def peladasResponse (db : DB) (now : Int) (courtId? : Option Nat)
    (slug? : Option String) (fromT toT : Option Int) :
    List PublicMatchView :=
  (((db.matchList.filter
      (peladasWhere db courtId? slug? fromT toT)).mergeSort
        (fun a b => decide (a.date ≤ b.date))).take 200).map
    (fun m => publicMatchView db (maybeAutoExpireMatch m now))

/-- Origin of a blocking interval in the slots computation. -/
inductive BlockSource
  | reservation
  | matchSrc
deriving DecidableEq, Repr

/-- One blocking interval with its `busyMeta` display metadata (the
source stores the status as a string; we keep the two typed variants). -/
structure Block where
  startAt : Int
  endAt : Int
  source : BlockSource
  rStatus : Option RStatus
  mStatus : Option MStatus
  totalPrice : Option Int
  reservationId : Option Nat
  matchId : Option Nat
  kind : Option MKind
  title : String
  maxPlayers : Option Int
  pricePerPlayer : Option Int
deriving DecidableEq, Repr

/-- Block of a non-canceled reservation. -/
def reservationBlock (r : ReservationRec) : Block :=
  { startAt := r.startAt, endAt := r.endAt,
    source := BlockSource.reservation, rStatus := some r.status,
    mStatus := none, totalPrice := r.totalPrice,
    reservationId := some r.id, matchId := none, kind := none,
    title := "Reserva", maxPlayers := none, pricePerPlayer := none }

/-- Block of an active match: the slots route gives match blocks a
duration of `slotMinutes` (not 60); the JS fallback
`m.title || (PELADA ? "Pelada" : "Reserva")` treats the empty string as
missing. -/
def matchBlock (slotMinutes : Nat) (m : MatchRec) : Block :=
  { startAt := m.date, endAt := addMinutes m.date (slotMinutes : Int),
    source := BlockSource.matchSrc, rStatus := none,
    mStatus := some m.status, totalPrice := none, reservationId := none,
    matchId := some m.id, kind := some m.kind,
    title := if m.title = "" then
        (if m.kind = MKind.PELADA then "Pelada" else "Reserva")
      else m.title,
    maxPlayers := some m.maxPlayers,
    pricePerPlayer := some m.pricePerPlayer }

/-- The blocking reservations of the day: non-canceled and touching the
day window. -/
def slotsReservations (db : DB) (courtIds : List Nat)
    (dayStart dayEnd : Int) : List ReservationRec :=
  db.reservations.filter (fun r => decide (r.courtId ∈ courtIds ∧
    r.status ≠ RStatus.CANCELED ∧ r.startAt ≤ dayEnd ∧ dayStart ≤ r.endAt))

/-- The blocking matches of the day: any kind, status not in
`{CANCELED, EXPIRED, FINISHED}`, starting within the day. -/
def slotsMatches (db : DB) (courtIds : List Nat)
    (dayStart dayEnd : Int) : List MatchRec :=
  db.matchList.filter (fun m => decide (m.courtId ∈ courtIds ∧
    (m.kind = MKind.BOOKING ∨ m.kind = MKind.PELADA) ∧
    m.status ≠ MStatus.CANCELED ∧ m.status ≠ MStatus.EXPIRED ∧
    m.status ≠ MStatus.FINISHED ∧ dayStart ≤ m.date ∧ m.date ≤ dayEnd))

/-- `blocksByCourt` for one court: its reservation blocks (in storage
order) followed by its match blocks. -/
def courtBlocks (db : DB) (courtIds : List Nat) (dayStart dayEnd : Int)
    (slotMinutes : Nat) (cid : Nat) : List Block :=
  ((slotsReservations db courtIds dayStart dayEnd).filter
      (fun r => r.courtId == cid)).map reservationBlock ++
  ((slotsMatches db courtIds dayStart dayEnd).filter
      (fun m => m.courtId == cid)).map (matchBlock slotMinutes)

/-- `toHM`: the hour/minute rendering of a minute offset of the day. -/
def toHM (totalMin : Nat) : Nat × Nat :=
  ((totalMin % 1440) / 60, (totalMin % 1440) % 60)

/-- One slot of the public grid, with its busy metadata. -/
structure SlotView where
  startHM : Nat × Nat
  endHM : Nat × Nat
  busy : Bool
  price : Option Int
  busyMeta : Option Block
deriving DecidableEq, Repr

/-- The slot loop of one court: each slot is busy when it overlaps the
first found block of either source. -/
def buildSlots (dayBase : Int) (openMin closeMin slotMinutes : Nat)
    (price : Option Int) (blocks : List Block) : List SlotView :=
  (slotLoop slotMinutes closeMin openMin).map (fun st =>
    let startAt := dayBase + (st.1 : Int)
    let endAt := dayBase + (st.2 : Int)
    let busyBlock := blocks.find? (fun b =>
      overlaps startAt endAt b.startAt b.endAt)
    { startHM := toHM st.1, endHM := toHM st.2,
      busy := busyBlock.isSome, price := price, busyMeta := busyBlock })

/-- `GET /reservations/public/slots`: resolve the arena by slug (404
when absent), tolerate zero courts and unparsable times (empty result,
not an error), then build each court's grid against its day blocks. -/
def publicSlotsResponse (db : DB) (slug : String) (dayBase : Int)
    (slotMinutes : Nat) : Option (List (Nat × List SlotView)) :=
  match db.arenas.find? (fun a => a.slug == slug) with
  | none => none
  | some arena =>
    let courts := db.courts.filter (fun c => c.arenaId == arena.id)
    if courts.isEmpty then some []
    else
      let openHM := arena.openTime.getD (7, 0)
      let closeHM := arena.closeTime.getD (23, 0)
      match parseHM openHM.1 openHM.2, parseHM closeHM.1 closeHM.2 with
      | some openMin, some closeMinRaw =>
        let closeMin := wrapClose openMin closeMinRaw
        let dayStart := dayBase
        let dayEnd := dayBase + 1439
        let courtIds := courts.map (fun c => c.id)
        some (courts.map (fun c =>
          (c.id, buildSlots dayBase openMin closeMin slotMinutes
            c.pricePerHour
            (courtBlocks db courtIds dayStart dayEnd slotMinutes c.id))))
      | _, _ => some []

/-- Replace every stored email by an arbitrary function of the user
row, leaving every other column unchanged. -/
def setEmails (db : DB) (f : UserRec → String) : DB :=
  { db with users := db.users.map (fun u => { u with email := f u }) }

/-! # Theorems -/

/-! ## C3 — lazy auto-expiration on reads -/

/-- C3: on every read of a match, a stored `SCHEDULED` match with
`minPlayers > 0`, read strictly more than 30 minutes past its `date` and
with fewer presences than `minPlayers`, is returned as `EXPIRED` with
`canceledAt` set to the read time; when any of the four conditions
fails, the stored row is returned unchanged. -/
theorem matchRead_autoExpire (m : MatchRec) (now : Int) :
    (m.status = MStatus.SCHEDULED → 0 < m.minPlayers →
      m.date + 30 < now → (m.presences.length : Int) < m.minPlayers →
      maybeAutoExpireMatch m now =
        { m with status := MStatus.EXPIRED, canceledAt := some now }) ∧
    (¬(m.status = MStatus.SCHEDULED ∧ 0 < m.minPlayers ∧
        m.date + 30 < now ∧ (m.presences.length : Int) < m.minPlayers) →
      maybeAutoExpireMatch m now = m) := by
  unfold maybeAutoExpireMatch addMinutes
  constructor
  · intro h1 h2 h3 h4
    rw [if_neg (by simp [h1]), if_neg (by omega), if_neg (by omega),
      if_neg (by omega)]
  · intro h
    split_ifs with a b c d
    · rfl
    · rfl
    · rfl
    · rfl
    · exact absurd ⟨not_not.mp a, by omega, by omega, by omega⟩ h

/-- Example match for the C3 witness: `SCHEDULED`, `minPlayers = 5`,
two presences, `date = 1000`. -/
def exMatchC3 : MatchRec :=
  { id := 1, title := "", courtId := 1, organizerId := 2, date := 1000,
    status := MStatus.SCHEDULED, kind := MKind.PELADA, maxPlayers := 14,
    minPlayers := 5, pricePerPlayer := 30, startedAt := none,
    finishedAt := none, canceledAt := none, presences := [7, 8] }

/-- C3 witness: read at `now = date + 31` the example match expires;
read at `now = date + 29` it is returned unchanged. -/
theorem matchRead_autoExpire_witness :
    maybeAutoExpireMatch exMatchC3 1031 =
      { exMatchC3 with status := MStatus.EXPIRED, canceledAt := some 1031 } ∧
    maybeAutoExpireMatch exMatchC3 1029 = exMatchC3 :=
  ⟨(matchRead_autoExpire exMatchC3 1031).1 rfl (by decide) (by decide)
      (by decide),
   (matchRead_autoExpire exMatchC3 1029).2 (by decide)⟩

/-! ## C8 — stat counters never go below zero -/

/-- Every row written by a stat event has all four counters clamped at
zero. -/
theorem statEventApply_nonneg (acc : Option MatchPlayerStat)
    (e : StatEvent) : statNonneg (statEventApply acc e) := by
  refine ⟨?_, ?_, ?_, ?_⟩ <;>
    simp [statEventApply, clampStat, statNonneg]

/-- Folding stat events from a state whose `some` values are
nonnegative only ever yields nonnegative rows. -/
theorem runStat_foldl_nonneg (es : List StatEvent) :
    ∀ acc : Option MatchPlayerStat,
      (∀ a, acc = some a → statNonneg a) →
      ∀ s, es.foldl (fun acc e => some (statEventApply acc e)) acc =
          some s → statNonneg s := by
  induction es with
  | nil => intro acc hacc s hs; exact hacc s hs
  | cons e es ih =>
    intro acc _ s hs
    refine ih (some (statEventApply acc e)) ?_ s hs
    intro a ha
    cases ha
    exact statEventApply_nonneg acc e

/-- C8: after every event of any sequence of stat events applied to one
`(matchId, userId)` row, every stored counter is `≥ 0`; and a decrement
of a counter already at zero leaves it at zero (the event is applied,
not rejected). -/
theorem statCounters_floor :
    (∀ (es : List StatEvent) (n : Nat) (s : MatchPlayerStat),
      runStatEvents (es.take n) = some s → statNonneg s) ∧
    (∀ (s : MatchPlayerStat) (e : StatEvent), e.delta = -1 →
      statCounter s e = 0 →
      statCounter (statEventApply (some s) e) e = 0) := by
  constructor
  · intro es n s hs
    exact runStat_foldl_nonneg (es.take n) none (by intro a h; cases h) s hs
  · intro s e hdelta hzero
    cases e with
    | mk ty mo delta =>
      cases ty <;> cases mo <;>
        simp only [statCounter, statEventApply, statIncrement,
          clampStat] at hzero ⊢ <;>
          (subst hdelta; omega)

/-- C8 witness: a decrement on an absent row, then another decrement:
both leave the counter at zero. -/
theorem statCounters_floor_witness :
    runStatEvents [⟨StatType.goal, StatMode.official, -1⟩,
      ⟨StatType.goal, StatMode.official, -1⟩] = some ⟨0, 0, 0, 0⟩ ∧
    statNonneg (⟨0, 0, 0, 0⟩ : MatchPlayerStat) ∧
    statCounter (statEventApply (some ⟨0, 0, 0, 0⟩)
      ⟨StatType.goal, StatMode.official, -1⟩)
      ⟨StatType.goal, StatMode.official, -1⟩ = 0 :=
  ⟨by decide,
   statCounters_floor.1 [⟨StatType.goal, StatMode.official, -1⟩,
      ⟨StatType.goal, StatMode.official, -1⟩] 2 ⟨0, 0, 0, 0⟩ (by decide),
   statCounters_floor.2 ⟨0, 0, 0, 0⟩
      ⟨StatType.goal, StatMode.official, -1⟩ rfl rfl⟩

/-! ## C5 — join: status gate, capacity gate, idempotence -/

/-- Example match for C5: `SCHEDULED`, `maxPlayers = 1`, already holding
the caller's presence row — the match is exactly at capacity. -/
def exMatchC5 : MatchRec :=
  { id := 3, title := "", courtId := 1, organizerId := 2, date := 1000,
    status := MStatus.SCHEDULED, kind := MKind.PELADA, maxPlayers := 1,
    minPlayers := 0, pricePerPlayer := 30, startedAt := none,
    finishedAt := none, canceledAt := none, presences := [7] }

/-- C5 counterexample: the caller (user 7) already holds a presence row
in a match at `maxPlayers` capacity, yet `join` answers 409 "full"
instead of the claimed idempotent success — the capacity gate runs
before the already-present check. -/
theorem join_full_counterexample :
    7 ∈ exMatchC5.presences ∧ exMatchC5.status = MStatus.SCHEDULED ∧
    joinMatch exMatchC5 7 = JoinResult.full := by decide

/-- C5 (amended): join answers 409 when the status is terminal; then
409 "full" whenever `maxPlayers > 0` and the presence count has reached
`maxPlayers` — even for a caller who is already present; below capacity,
a caller already holding a presence row gets a no-op success (no
duplicate row, count unchanged), and otherwise exactly one presence row
for the caller is appended. -/
theorem join_behavior (m : MatchRec) (u : Nat) :
    (m.status = MStatus.CANCELED ∨ m.status = MStatus.EXPIRED ∨
        m.status = MStatus.FINISHED →
      joinMatch m u = JoinResult.statusConflict m.status) ∧
    (¬(m.status = MStatus.CANCELED ∨ m.status = MStatus.EXPIRED ∨
        m.status = MStatus.FINISHED) →
      0 < m.maxPlayers → m.maxPlayers ≤ (m.presences.length : Int) →
      joinMatch m u = JoinResult.full) ∧
    (¬(m.status = MStatus.CANCELED ∨ m.status = MStatus.EXPIRED ∨
        m.status = MStatus.FINISHED) →
      ¬(0 < m.maxPlayers ∧ m.maxPlayers ≤ (m.presences.length : Int)) →
      u ∈ m.presences →
      joinMatch m u = JoinResult.ok m) ∧
    (¬(m.status = MStatus.CANCELED ∨ m.status = MStatus.EXPIRED ∨
        m.status = MStatus.FINISHED) →
      ¬(0 < m.maxPlayers ∧ m.maxPlayers ≤ (m.presences.length : Int)) →
      u ∉ m.presences →
      joinMatch m u =
        JoinResult.ok { m with presences := m.presences ++ [u] }) := by
  unfold joinMatch
  refine ⟨?_, ?_, ?_, ?_⟩
  · intro h; rw [if_pos h]
  · intro h h1 h2; rw [if_neg h, if_pos ⟨h1, h2⟩]
  · intro h hcap hmem; rw [if_neg h, if_neg hcap, if_pos hmem]
  · intro h hcap hmem; rw [if_neg h, if_neg hcap, if_neg hmem]

/-- Example match for the C5 witness: same as `exMatchC5` but with room
(`maxPlayers = 2`). -/
def exMatchC5b : MatchRec := { exMatchC5 with maxPlayers := 2 }

/-- C5 witness: the four branches of `join_behavior` at concrete
matches: a finished match conflicts; the at-capacity match answers
"full"; the caller already present below capacity is a no-op; a new
caller below capacity is appended. -/
theorem join_behavior_witness :
    joinMatch { exMatchC5 with status := MStatus.FINISHED } 7 =
      JoinResult.statusConflict MStatus.FINISHED ∧
    joinMatch exMatchC5 9 = JoinResult.full ∧
    joinMatch exMatchC5b 7 = JoinResult.ok exMatchC5b ∧
    joinMatch exMatchC5b 9 =
      JoinResult.ok { exMatchC5b with presences := [7, 9] } :=
  ⟨(join_behavior { exMatchC5 with status := MStatus.FINISHED } 7).1
      (by decide),
   (join_behavior exMatchC5 9).2.1 (by decide) (by decide) (by decide),
   (join_behavior exMatchC5b 7).2.2.1 (by decide) (by decide) (by decide),
   (join_behavior exMatchC5b 9).2.2.2 (by decide) (by decide) (by decide)⟩

/-! ## C7 — are EXPIRED and FINISHED terminal? -/

/-- An `EXPIRED` match. -/
def exMatchC7 : MatchRec := { exMatchC3 with status := MStatus.EXPIRED }

/-- C7 counterexample: `PATCH /matches/:id/uncancel` on an `EXPIRED`
match sets it back to `SCHEDULED` — the handler never checks that the
current status is `CANCELED`, so `EXPIRED` is not terminal. -/
theorem uncancel_expired_counterexample :
    exMatchC7.status = MStatus.EXPIRED ∧
    (uncancelMatch exMatchC7).status = MStatus.SCHEDULED ∧
    (startMatch { exMatchC3 with status := MStatus.FINISHED } 0).status =
      MStatus.LIVE := by decide

/-- C7 (amended): none of the five transition endpoints inspects the
current status — each one, once permission is granted, writes its target
status unconditionally; in particular `uncancel` returns a match of any
status (including `EXPIRED` and `FINISHED`) to `SCHEDULED`, so `EXPIRED`
and `FINISHED` are not terminal. -/
theorem matchTransitions_unconditional (m : MatchRec) (now : Int) :
    (startMatch m now).status = MStatus.LIVE ∧
    (finishMatch m now).status = MStatus.FINISHED ∧
    (cancelMatch m now).status = MStatus.CANCELED ∧
    (uncancelMatch m).status = MStatus.SCHEDULED ∧
    (uncancelMatch m).canceledAt = none ∧
    (expireMatch m now).status = MStatus.EXPIRED :=
  ⟨rfl, rfl, rfl, rfl, rfl, rfl⟩

/-! ## C4 — the public slot grid -/

/-- The slot loop emits exactly the arithmetic progression of slots
whose end does not exceed the close time. -/
theorem slotLoop_eq (s closeMin : Nat) (hs : 0 < s) :
    ∀ t, slotLoop s closeMin t =
      (List.range ((closeMin - t) / s)).map
        (fun k => (t + k * s, t + (k + 1) * s)) := by
  intro t
  induction t using slotLoop.induct s closeMin with
  | case1 t h ih =>
    rw [slotLoop, dif_pos h]
    have hdiv : (closeMin - t) / s = (closeMin - (t + s)) / s + 1 := by
      have h2 := h.2
      rw [← Nat.sub_sub]
      have := Nat.div_eq_sub_div hs (by omega : s ≤ closeMin - t)
      omega
    rw [hdiv, List.range_succ_eq_map, List.map_cons, List.map_map, ih]
    refine congrArg₂ _ (by simp) ?_
    refine List.map_congr_left ?_
    intro k _
    simp only [Function.comp, Prod.mk.injEq, Nat.succ_eq_add_one]
    constructor <;> ring
  | case2 t h =>
    rw [slotLoop, dif_neg h]
    push_neg at h
    have : closeMin - t < s := by
      rcases Nat.lt_or_ge (t + s) (closeMin + 1) with h1 | h1
      · omega
      · omega
    rw [Nat.div_eq_of_lt this]
    simp

/-- C4: for parseable `openTime`/`closeTime` and `slotMinutes ∈
[30, 180]`, the grid is exactly the increasing sequence of half-open
slots `[open + k·s, open + (k+1)·s)`, a slot being present exactly when
its end does not exceed the (midnight-wrapped) close time — so no
partial trailing slot; with `09:00`–`11:00` the 60-minute grid is
`09:00–10:00, 10:00–11:00` and the 90-minute grid is just
`09:00–10:30`. -/
theorem publicSlots_grid (oh om ch cm s openMin closeMinRaw : Nat)
    (hOpen : parseHM oh om = some openMin)
    (hClose : parseHM ch cm = some closeMinRaw)
    (h30 : 30 ≤ s) (h180 : s ≤ 180) :
    slotGrid (oh, om) (ch, cm) s =
      (List.range ((wrapClose openMin closeMinRaw - openMin) / s)).map
        (fun k => (openMin + k * s, openMin + (k + 1) * s)) ∧
    (∀ k : Nat, k < (wrapClose openMin closeMinRaw - openMin) / s ↔
      openMin + (k + 1) * s ≤ wrapClose openMin closeMinRaw) ∧
    slotGrid (9, 0) (11, 0) 60 = [(540, 600), (600, 660)] ∧
    slotGrid (9, 0) (11, 0) 90 = [(540, 630)] := by
  have hs : 0 < s := by omega
  have hOpenLe : openMin ≤ 1439 := by
    unfold parseHM at hOpen
    split at hOpen
    · exact absurd hOpen (by simp)
    · next hb =>
      push_neg at hb
      cases hOpen
      omega
  have hOC : openMin ≤ wrapClose openMin closeMinRaw := by
    unfold wrapClose
    split <;> omega
  refine ⟨?_, ?_, ?_, ?_⟩
  · simp only [slotGrid, hOpen, hClose]
    exact slotLoop_eq s _ hs openMin
  · intro k
    rw [show (k < (wrapClose openMin closeMinRaw - openMin) / s ↔
        k + 1 ≤ (wrapClose openMin closeMinRaw - openMin) / s) from
      Iff.rfl]
    rw [Nat.le_div_iff_mul_le hs]
    generalize (k + 1) * s = x
    omega
  · show slotLoop 60 (wrapClose 540 660) 540 = _
    rw [slotLoop_eq 60 _ (by norm_num)]
    decide
  · show slotLoop 90 (wrapClose 540 660) 540 = _
    rw [slotLoop_eq 90 _ (by norm_num)]
    decide

/-- C4 witness: the theorem applied at `openTime = 09:00`,
`closeTime = 11:00`, `slotMinutes = 60`, instantiating its two example
conjuncts. -/
theorem publicSlots_grid_witness :
    slotGrid (9, 0) (11, 0) 60 = [(540, 600), (600, 660)] ∧
    slotGrid (9, 0) (11, 0) 90 = [(540, 630)] :=
  ⟨(publicSlots_grid 9 0 11 0 60 540 660 rfl rfl (by norm_num)
      (by norm_num)).2.2.1,
   (publicSlots_grid 9 0 11 0 90 540 660 rfl rfl (by norm_num)
      (by norm_num)).2.2.2⟩

/-! ## C6 — reservation confirm/paid stage guards -/

/-- C6: with an authorized caller (`admin`, or `arena_owner` owning the
court's arena), `confirm` moves exactly the `PENDING` reservations to
`CONFIRMED` and answers 409 leaving the row unchanged otherwise;
`paid` marks exactly the `CONFIRMED` reservations `PAID` and answers
409 leaving the row unchanged otherwise. -/
theorem reservation_stage_guards (role : Role) (owns : Bool)
    (r : ReservationRec)
    (hauth : role = Role.admin ∨ (role = Role.arenaOwner ∧ owns = true)) :
    (r.status = RStatus.PENDING →
      confirmReservation role owns r =
        (200, { r with status := RStatus.CONFIRMED })) ∧
    (r.status ≠ RStatus.PENDING →
      confirmReservation role owns r = (409, r)) ∧
    (r.status = RStatus.CONFIRMED →
      paidReservation role owns r =
        (200, { r with paymentStatus := PayStatus.PAID })) ∧
    (r.status ≠ RStatus.CONFIRMED →
      paidReservation role owns r = (409, r)) := by
  unfold confirmReservation paidReservation
  rcases hauth with h | ⟨h1, h2⟩
  · subst h
    refine ⟨?_, ?_, ?_, ?_⟩ <;> intro hs <;> simp [hs]
  · subst h1 h2
    refine ⟨?_, ?_, ?_, ?_⟩ <;> intro hs <;> simp [hs]

/-! ## C2 — what blocks a creation -/

/-- The reservation conflict query finds a row exactly when some
reservation on the court is non-canceled and overlaps the proposed
interval. -/
theorem findConflictReservation_isSome (db : DB) (c : Nat) (s e : Int) :
    (findConflictReservation db c s e).isSome ↔
      ∃ r ∈ db.reservations, r.courtId = c ∧
        r.status ≠ RStatus.CANCELED ∧ r.startAt < e ∧ s < r.endAt := by
  unfold findConflictReservation
  rw [List.find?_isSome]
  constructor
  · rintro ⟨x, hx, hp⟩
    rw [decide_eq_true_eq] at hp
    exact ⟨x, hx, hp.1, hp.2.1, hp.2.2.1, hp.2.2.2⟩
  · rintro ⟨x, hx, h1, h2, h3, h4⟩
    exact ⟨x, hx, by rw [decide_eq_true_eq]; exact ⟨h1, h2, h3, h4⟩⟩

/-- The match conflict check finds a row exactly when some match on the
court — of any status — has a 60-minute window overlapping the proposed
interval: the `nearMatches` pre-filter window `[start−180, end+180]`
never excludes a true conflict. -/
theorem findConflictMatch_isSome (db : DB) (c : Nat) (s e : Int) :
    (findConflictMatch db c s e).isSome ↔
      ∃ m ∈ db.matchList, m.courtId = c ∧ m.date < e ∧
        s < m.date + 60 := by
  unfold findConflictMatch nearMatches overlaps addMinutes
  rw [List.find?_isSome]
  constructor
  · rintro ⟨x, hx, hp⟩
    rw [List.mem_filter, decide_eq_true_eq] at hx
    rw [decide_eq_true_eq] at hp
    exact ⟨x, hx.1, hx.2.1, by omega, by omega⟩
  · rintro ⟨x, hx, h1, h2, h3⟩
    refine ⟨x, ?_, ?_⟩
    · rw [List.mem_filter, decide_eq_true_eq]
      exact ⟨hx, h1, by omega, by omega⟩
    · rw [decide_eq_true_eq]
      exact ⟨by omega, by omega⟩

/-- Court and actors of the end-to-end scenario. -/
def scenCourt : CourtRec := { id := 1, arenaId := 1, pricePerHour := none }

/-- Admin user used by the scenarios. -/
def scenAdmin : UserRec := { id := 5, name := "", email := "", role := Role.admin }

/-- A `CANCELED` match occupying `[600, 660)` on court 1. -/
def exC2Match : MatchRec :=
  { id := 0, title := "", courtId := 1, organizerId := 2, date := 600,
    status := MStatus.CANCELED, kind := MKind.BOOKING, maxPlayers := 14,
    minPlayers := 0, pricePerPlayer := 30, startedAt := none,
    finishedAt := none, canceledAt := some 0, presences := [] }

/-- A database holding only the canceled match. -/
def exC2DB : DB :=
  { users := [], arenas := [], courts := [scenCourt], reservations := [],
    matchList := [exC2Match], nextId := 1 }

/-- C2 counterexample: (a) a `CANCELED` match does cause `POST /matches`
and `POST /matches/peladas` to be rejected with 409 — the `nearMatches`
conflict query has no status filter; (b) `POST /reservations` runs no
match check at all: it succeeds over the window of that same match even
when the match is `SCHEDULED`. -/
theorem canceled_match_blocks_counterexample :
    exC2Match.status = MStatus.CANCELED ∧
    (postMatch exC2DB scenAdmin true 1 600 "" MKind.BOOKING 14 0 30).1 =
      CreateMatchResult.conflictMatch exC2Match ∧
    (postPelada exC2DB scenAdmin 1 600 "" 14 0 30).1 =
      CreateMatchResult.conflictMatch exC2Match ∧
    (postReservation
      { exC2DB with matchList :=
          [{ exC2Match with status := MStatus.SCHEDULED }] }
      9 1 600 660 none).1 = 200 := by decide

/-- The empty scenario database with one court. -/
def scenDB0 : DB :=
  { users := [], arenas := [], courts := [scenCourt], reservations := [],
    matchList := [], nextId := 0 }

/-- After creating reservation A (`[600, 660)`, `PENDING`) on court 1. -/
def scenDB1 : DB := (postReservation scenDB0 9 1 600 660 none).2

/-- Reservation A as stored. -/
def scenResA : ReservationRec :=
  { id := 0, courtId := 1, userId := 9, startAt := 600, endAt := 660,
    status := RStatus.PENDING, paymentStatus := PayStatus.UNPAID,
    totalPrice := none }

/-- After the reserving user cancels reservation A. -/
def scenDB2 : DB :=
  updateReservation scenDB1 0 (fun r => (cancelSelfReservation 9 Role.user r).2)

/-- The match created on the retry. -/
def scenMatch : MatchRec :=
  { id := 1, title := "", courtId := 1, organizerId := 5, date := 630,
    status := MStatus.SCHEDULED, kind := MKind.BOOKING, maxPlayers := 14,
    minPlayers := 0, pricePerPlayer := 30, startedAt := none,
    finishedAt := none, canceledAt := none, presences := [] }

/-- C2 (amended): the blocking entities of the creation paths are —
for `POST /matches` and `POST /matches/peladas` — reservations with
status ≠ CANCELED plus ALL matches on the court whose 60-minute window
overlaps, regardless of status, while `POST /reservations` blocks only
on reservations with status ≠ CANCELED (it runs no match query); and the
end-to-end scenario holds: reservation A at `[600, 660)` makes the match
creation at 630 fail with a `reservation`-typed 409, and after canceling
A the same creation succeeds with 201. -/
theorem creation_blocking_sets (db : DB) (u c : Nat) (s e : Int)
    (tp : Option Int) :
    ((findConflictReservation db c s e).isSome ↔
      ∃ r ∈ db.reservations, r.courtId = c ∧
        r.status ≠ RStatus.CANCELED ∧ r.startAt < e ∧ s < r.endAt) ∧
    ((findConflictMatch db c s e).isSome ↔
      ∃ m ∈ db.matchList, m.courtId = c ∧ m.date < e ∧
        s < m.date + 60) ∧
    ((postReservation db u c s e tp).1 = 409 ↔
      s < e ∧ (findConflictReservation db c s e).isSome) ∧
    (postReservation scenDB0 9 1 600 660 none).1 = 200 ∧
    scenDB1.reservations = [scenResA] ∧
    (postMatch scenDB1 scenAdmin true 1 630 "" MKind.BOOKING 14 0 30).1 =
      CreateMatchResult.conflictReservation scenResA ∧
    scenDB2.reservations = [{ scenResA with status := RStatus.CANCELED }] ∧
    (postMatch scenDB2 scenAdmin true 1 630 "" MKind.BOOKING 14 0 30).1 =
      CreateMatchResult.created scenMatch := by
  refine ⟨findConflictReservation_isSome db c s e,
    findConflictMatch_isSome db c s e, ?_, by decide, by decide,
    by decide, by decide, by decide⟩
  unfold postReservation
  by_cases h1 : s < e
  · rw [if_neg (not_not_intro h1)]
    cases hfind : findConflictReservation db c s e with
    | none => split_ifs <;> simp
    | some r => simp [h1]
  · rw [if_pos h1]
    simp [h1]

/-! ## C10 — pelada creation auto-joins the organizer -/

/-- `find?` skips a prefix on which the predicate fails. -/
theorem find?_append_left_none {α : Type} (p : α → Bool) (l1 l2 : List α)
    (h : ∀ x ∈ l1, p x = false) : (l1 ++ l2).find? p = l2.find? p := by
  induction l1 with
  | nil => rfl
  | cons a l ih =>
    rw [List.cons_append,
      List.find?_cons_of_neg _ (by simp [h a (by simp)])]
    exact ih (fun x hx => h x (by simp [hx]))

/-- C10: every successful `POST /matches/peladas` stores the new match
with exactly one presence row — the organizer's — and the 201 response
carries that same row (so the creator counts toward `maxPlayers` and
`minPlayers` from the start).  The freshness hypothesis states that the
generated id is new, which the storage layer guarantees. -/
theorem pelada_creator_presence (db : DB) (user : UserRec) (c : Nat)
    (d : Int) (t : String) (mx mn pp : Int) (m : MatchRec) (db' : DB)
    (hfresh : ∀ x ∈ db.matchList, x.id ≠ db.nextId)
    (h : postPelada db user c d t mx mn pp =
      (CreateMatchResult.created m, db')) :
    m.presences = [user.id] ∧ m.organizerId = user.id ∧
    db'.matchList = db.matchList ++ [m] := by
  unfold postPelada at h
  rcases Bool.eq_false_or_eq_true (db.courts.any fun x => x.id == c) with
    hc | hc
  swap
  · rw [if_pos (by simp [hc])] at h
    exact absurd (congrArg Prod.fst h) (by simp)
  · rw [if_neg (by simp [hc])] at h
    dsimp only [] at h
    cases hr : findConflictReservation db c d (addMinutes d 60) with
    | some r =>
      rw [hr] at h; dsimp only [] at h
      exact absurd (congrArg Prod.fst h) (by simp)
    | none =>
      rw [hr] at h; dsimp only [] at h
      cases hm : findConflictMatch db c d (addMinutes d 60) with
      | some x =>
        rw [hm] at h; dsimp only [] at h
        exact absurd (congrArg Prod.fst h) (by simp)
      | none =>
        rw [hm] at h; dsimp only [] at h
        simp only [addPresence] at h
        rw [List.map_append] at h
        rw [show db.matchList.map (fun x =>
            if x.id = db.nextId then
              { x with presences := x.presences ++ [user.id] }
            else x) = db.matchList from
          (List.map_congr_left (fun x hx => if_neg (hfresh x hx))).trans
            (List.map_id _)] at h
        rw [find?_append_left_none _ db.matchList _
          (fun x hx => by simp [hfresh x hx])] at h
        simp at h
        obtain ⟨h1, h2⟩ := h
        subst h1
        subst h2
        exact ⟨rfl, rfl, rfl⟩

/-- The stored (and returned) pelada of the witness scenario. -/
def scenPelada : MatchRec :=
  { id := 0, title := "", courtId := 1, organizerId := 5, date := 600,
    status := MStatus.SCHEDULED, kind := MKind.PELADA, maxPlayers := 14,
    minPlayers := 0, pricePerPlayer := 30, startedAt := none,
    finishedAt := none, canceledAt := none, presences := [5] }

/-- C10 witness: creating a pelada on the empty scenario database yields
exactly the organizer's presence row, already in the 201 payload. -/
theorem pelada_creator_presence_witness :
    scenPelada.presences = [scenAdmin.id] ∧
    scenPelada.organizerId = scenAdmin.id ∧
    ((postPelada scenDB0 scenAdmin 1 600 "" 14 0 30).2).matchList =
      scenDB0.matchList ++ [scenPelada] :=
  pelada_creator_presence scenDB0 scenAdmin 1 600 "" 14 0 30 scenPelada
    (postPelada scenDB0 scenAdmin 1 600 "" 14 0 30).2
    (by decide) (by decide)

/-- A `PENDING` reservation. -/
def exResC6 : ReservationRec :=
  { id := 4, courtId := 1, userId := 9, startAt := 600, endAt := 660,
    status := RStatus.PENDING, paymentStatus := PayStatus.UNPAID,
    totalPrice := none }

/-- C6 witness: an admin confirms the example `PENDING` reservation;
`paid` on the same (still `PENDING`) row answers 409 unchanged;
`confirm` on a `CANCELED` row answers 409 unchanged. -/
theorem reservation_stage_guards_witness :
    confirmReservation Role.admin false exResC6 =
      (200, { exResC6 with status := RStatus.CONFIRMED }) ∧
    paidReservation Role.admin false exResC6 = (409, exResC6) ∧
    confirmReservation Role.admin false
        { exResC6 with status := RStatus.CANCELED } =
      (409, { exResC6 with status := RStatus.CANCELED }) :=
  ⟨(reservation_stage_guards Role.admin false exResC6 (Or.inl rfl)).1 rfl,
   (reservation_stage_guards Role.admin false exResC6
      (Or.inl rfl)).2.2.2 (by decide),
   (reservation_stage_guards Role.admin false
      { exResC6 with status := RStatus.CANCELED } (Or.inl rfl)).2.1
      (by decide)⟩

/-! ## C9 — public paths never expose emails -/

/-- A public user lookup is unchanged by any rewrite of the stored
emails. -/
theorem lookupUser_setEmails (db : DB) (f : UserRec → String) (uid : Nat) :
    (lookupUser (setEmails db f) uid).map toPublicUser =
      (lookupUser db uid).map toPublicUser := by
  unfold lookupUser setEmails
  rw [show ({ db with users := db.users.map (fun u => { u with email := f u }) } : DB).users = db.users.map (fun u => { u with email := f u }) from rfl]
  rw [List.find?_map]
  rw [show ((fun u : UserRec => u.id == uid) ∘
      fun u => { u with email := f u }) = (fun u : UserRec => u.id == uid)
    from funext (fun u => rfl)]
  cases db.users.find? (fun u => u.id == uid) <;> rfl

/-- The public serialization of one match is unchanged by any rewrite of
the stored emails. -/
theorem publicMatchView_setEmails (db : DB) (f : UserRec → String)
    (m : MatchRec) :
    publicMatchView (setEmails db f) m = publicMatchView db m := by
  unfold publicMatchView
  simp only [lookupUser_setEmails]

/-- C9: neither public read path depends on any stored email: the
responses of `GET /matches/peladas` and `GET /reservations/public/slots`
are unchanged under every rewrite of the users' email column (users are
serialized through the email-free `id`/`name`/`role` projection, and the
slots payload reads no user data at all). -/
theorem public_paths_no_email (db : DB) (f : UserRec → String) (now : Int)
    (courtId? : Option Nat) (slug? : Option String) (fromT toT : Option Int)
    (slug : String) (dayBase : Int) (slotMinutes : Nat) :
    peladasResponse (setEmails db f) now courtId? slug? fromT toT =
      peladasResponse db now courtId? slug? fromT toT ∧
    publicSlotsResponse (setEmails db f) slug dayBase slotMinutes =
      publicSlotsResponse db slug dayBase slotMinutes := by
  constructor
  · unfold peladasResponse
    exact List.map_congr_left (fun m _ =>
      publicMatchView_setEmails db f (maybeAutoExpireMatch m now))
  · rfl

/-! ## C1 — no double booking -/

/-- The 60-minute windows of two match rows on the same court do not
overlap. -/
def matchMatchOk (a b : MatchRec) : Prop :=
  a.courtId = b.courtId → ¬(a.date < b.date + 60 ∧ b.date < a.date + 60)

/-- The intervals of two non-canceled reservation rows on the same
court do not overlap. -/
def resResOk (a b : ReservationRec) : Prop :=
  a.courtId = b.courtId → a.status ≠ RStatus.CANCELED →
    b.status ≠ RStatus.CANCELED →
    ¬(a.startAt < b.endAt ∧ b.startAt < a.endAt)

/-- The intra-entity no-double-booking invariant. -/
def noDoubleBooking (db : DB) : Prop :=
  db.matchList.Pairwise matchMatchOk ∧ db.reservations.Pairwise resResOk

/-- Row ids are pairwise distinct and below the id counter. -/
def dbIdsOk (db : DB) : Prop :=
  (db.matchList.map (fun m => m.id)).Nodup ∧
  (∀ m ∈ db.matchList, m.id < db.nextId) ∧
  (db.reservations.map (fun r => r.id)).Nodup ∧
  (∀ r ∈ db.reservations, r.id < db.nextId)

/-- A row rewrite that keeps id, court, interval, and never revives a
canceled reservation. -/
def resUpdateSafe (h : ReservationRec → ReservationRec) : Prop :=
  ∀ r, (h r).id = r.id ∧ (h r).courtId = r.courtId ∧
    (h r).startAt = r.startAt ∧ (h r).endAt = r.endAt ∧
    ((h r).status ≠ RStatus.CANCELED → r.status ≠ RStatus.CANCELED)

/-- A row rewrite that keeps id, court and start instant. -/
def matchUpdateSafe (h : MatchRec → MatchRec) : Prop :=
  ∀ m, (h m).id = m.id ∧ (h m).courtId = m.courtId ∧ (h m).date = m.date

/-- All four reservation transition handlers are safe rewrites. -/
theorem reservationHandlers_safe (role : Role) (owns : Bool)
    (caller : Nat) :
    resUpdateSafe (fun r => (confirmReservation role owns r).2) ∧
    resUpdateSafe (fun r => (paidReservation role owns r).2) ∧
    resUpdateSafe (fun r => (cancelOwnerReservation role owns r).2) ∧
    resUpdateSafe (fun r => (cancelSelfReservation caller role r).2) := by
  refine ⟨fun r => ?_, fun r => ?_, fun r => ?_, fun r => ?_⟩
  · simp only [confirmReservation]
    split_ifs <;> simp_all
  · simp only [paidReservation]
    split_ifs <;> simp_all
  · simp only [cancelOwnerReservation]
    split_ifs <;> simp_all
  · simp only [cancelSelfReservation]
    split_ifs <;> simp_all

/-- All match transition handlers, the lazy auto-expire and the
presence rewrites are safe. -/
theorem matchHandlers_safe (now : Int) (u : Nat) :
    matchUpdateSafe (fun m => startMatch m now) ∧
    matchUpdateSafe (fun m => finishMatch m now) ∧
    matchUpdateSafe (fun m => cancelMatch m now) ∧
    matchUpdateSafe uncancelMatch ∧
    matchUpdateSafe (fun m => expireMatch m now) ∧
    matchUpdateSafe (fun m => maybeAutoExpireMatch m now) ∧
    matchUpdateSafe (fun m =>
      { m with presences := m.presences.filter (fun x => x ≠ u) }) := by
  refine ⟨fun m => ⟨rfl, rfl, rfl⟩, fun m => ⟨rfl, rfl, rfl⟩,
    fun m => ⟨rfl, rfl, rfl⟩, fun m => ⟨rfl, rfl, rfl⟩,
    fun m => ⟨rfl, rfl, rfl⟩, fun m => ?_, fun m => ⟨rfl, rfl, rfl⟩⟩
  unfold maybeAutoExpireMatch
  dsimp only []
  split_ifs <;> exact ⟨rfl, rfl, rfl⟩

/-- `updateReservation` with a rewrite that, on the stored rows, keeps
id, court, interval and never revives a canceled reservation, preserves
both ids and the reservation pairwise invariant. -/
theorem updateReservation_preserves (db : DB) (id : Nat)
    (h : ReservationRec → ReservationRec)
    (hg : ∀ r ∈ db.reservations,
      (if r.id = id then h r else r).id = r.id ∧
      (if r.id = id then h r else r).courtId = r.courtId ∧
      (if r.id = id then h r else r).startAt = r.startAt ∧
      (if r.id = id then h r else r).endAt = r.endAt ∧
      ((if r.id = id then h r else r).status ≠ RStatus.CANCELED →
        r.status ≠ RStatus.CANCELED))
    (hids : dbIdsOk db) (hinv : noDoubleBooking db) :
    dbIdsOk (updateReservation db id h) ∧
    noDoubleBooking (updateReservation db id h) := by
  obtain ⟨hmn, hmb, hrn, hrb⟩ := hids
  obtain ⟨hw, hr⟩ := hinv
  unfold updateReservation dbIdsOk noDoubleBooking
  dsimp only []
  refine ⟨⟨hmn, hmb, ?_, ?_⟩, hw, ?_⟩
  · rw [List.map_map]
    have hmap : List.map ((fun r => r.id) ∘ fun r =>
        if r.id = id then h r else r) db.reservations =
        List.map (fun r => r.id) db.reservations :=
      List.map_congr_left (fun r hmem => (hg r hmem).1)
    rw [hmap]
    exact hrn
  · intro r hrm
    rw [List.mem_map] at hrm
    obtain ⟨x, hx, hxe⟩ := hrm
    rw [← hxe, (hg x hx).1]
    exact hrb x hx
  · rw [List.pairwise_map]
    refine List.Pairwise.imp_of_mem (fun ha hb hab => ?_) hr
    next a b =>
    intro hc hsa hsb
    rw [(hg a ha).2.1, (hg b hb).2.1] at hc
    rw [(hg a ha).2.2.1, (hg b hb).2.2.1, (hg a ha).2.2.2.1,
      (hg b hb).2.2.2.1]
    exact hab hc ((hg a ha).2.2.2.2 hsa) ((hg b hb).2.2.2.2 hsb)

/-- `updateMatch` with a rewrite that, on the stored rows, keeps id,
court and start instant, preserves ids and the match pairwise
invariant. -/
theorem updateMatch_preserves (db : DB) (id : Nat)
    (h : MatchRec → MatchRec)
    (hg : ∀ m ∈ db.matchList,
      (if m.id = id then h m else m).id = m.id ∧
      (if m.id = id then h m else m).courtId = m.courtId ∧
      (if m.id = id then h m else m).date = m.date)
    (hids : dbIdsOk db) (hinv : noDoubleBooking db) :
    dbIdsOk (updateMatch db id h) ∧ noDoubleBooking (updateMatch db id h) := by
  obtain ⟨hmn, hmb, hrn, hrb⟩ := hids
  obtain ⟨hw, hr⟩ := hinv
  unfold updateMatch dbIdsOk noDoubleBooking
  dsimp only []
  refine ⟨⟨?_, ?_, hrn, hrb⟩, ?_, hr⟩
  · rw [List.map_map]
    have hmap : List.map ((fun m => m.id) ∘ fun m =>
        if m.id = id then h m else m) db.matchList =
        List.map (fun m => m.id) db.matchList :=
      List.map_congr_left (fun m hmem => (hg m hmem).1)
    rw [hmap]
    exact hmn
  · intro m hm
    rw [List.mem_map] at hm
    obtain ⟨x, hx, hxe⟩ := hm
    rw [← hxe, (hg x hx).1]
    exact hmb x hx
  · rw [List.pairwise_map]
    refine List.Pairwise.imp_of_mem (fun ha hb hab => ?_) hw
    next a b =>
    intro hc
    rw [(hg a ha).2.1, (hg b hb).2.1] at hc
    rw [(hg a ha).2.2, (hg b hb).2.2]
    exact hab hc

/-- Bridge: an unconditionally safe reservation rewrite satisfies the
row-wise hypothesis of `updateReservation_preserves`. -/
theorem resUpdateSafe_row (h : ReservationRec → ReservationRec)
    (hs : resUpdateSafe h) (id : Nat) (r : ReservationRec) :
    (if r.id = id then h r else r).id = r.id ∧
    (if r.id = id then h r else r).courtId = r.courtId ∧
    (if r.id = id then h r else r).startAt = r.startAt ∧
    (if r.id = id then h r else r).endAt = r.endAt ∧
    ((if r.id = id then h r else r).status ≠ RStatus.CANCELED →
      r.status ≠ RStatus.CANCELED) := by
  by_cases hr : r.id = id
  · simpa [hr] using hs r
  · simp [hr]

/-- Bridge: an unconditionally safe match rewrite satisfies the
row-wise hypothesis of `updateMatch_preserves`. -/
theorem matchUpdateSafe_row (h : MatchRec → MatchRec)
    (hs : matchUpdateSafe h) (id : Nat) (m : MatchRec) :
    (if m.id = id then h m else m).id = m.id ∧
    (if m.id = id then h m else m).courtId = m.courtId ∧
    (if m.id = id then h m else m).date = m.date := by
  by_cases hm : m.id = id
  · simpa [hm] using hs m
  · simp [hm]

/-- A `none` answer of the reservation conflict query gives per-row
non-overlap. -/
theorem findConflictReservation_none (db : DB) (c : Nat) (s e : Int)
    (h : findConflictReservation db c s e = none) :
    ∀ r ∈ db.reservations, r.courtId = c → r.status ≠ RStatus.CANCELED →
      ¬(r.startAt < e ∧ s < r.endAt) := by
  intro r hr hc hs hov
  have hsome : (findConflictReservation db c s e).isSome := by
    rw [findConflictReservation_isSome]
    exact ⟨r, hr, hc, hs, hov.1, hov.2⟩
  rw [h] at hsome
  simp at hsome

/-- A `none` answer of the match conflict check gives per-row
non-overlap of the 60-minute windows. -/
theorem findConflictMatch_none (db : DB) (c : Nat) (d : Int)
    (h : findConflictMatch db c d (addMinutes d 60) = none) :
    ∀ m ∈ db.matchList, m.courtId = c →
      ¬(m.date < d + 60 ∧ d < m.date + 60) := by
  intro m hm hc hov
  have hsome : (findConflictMatch db c d (addMinutes d 60)).isSome := by
    rw [findConflictMatch_isSome]
    refine ⟨m, hm, hc, ?_, by omega⟩
    show m.date < addMinutes d 60
    unfold addMinutes
    omega
  rw [h] at hsome
  simp at hsome

/-- Appending a freshly-id'd match that the conflict check cleared
preserves ids and the invariant. -/
theorem append_match_preserves (db : DB) (newM : MatchRec)
    (hid : newM.id = db.nextId)
    (hcourt : ∀ m ∈ db.matchList, m.courtId = newM.courtId →
      ¬(m.date < newM.date + 60 ∧ newM.date < m.date + 60))
    (hids : dbIdsOk db) (hinv : noDoubleBooking db) :
    dbIdsOk { db with matchList := db.matchList ++ [newM],
                      nextId := db.nextId + 1 } ∧
    noDoubleBooking { db with matchList := db.matchList ++ [newM],
                              nextId := db.nextId + 1 } := by
  obtain ⟨hmn, hmb, hrn, hrb⟩ := hids
  obtain ⟨hw, hr⟩ := hinv
  unfold dbIdsOk noDoubleBooking
  dsimp only []
  refine ⟨⟨?_, ?_, hrn, fun r hr2 => Nat.lt_succ_of_lt (hrb r hr2)⟩,
    ?_, hr⟩
  · rw [List.map_append, List.nodup_append]
    refine ⟨hmn, by simp, ?_⟩
    intro x hx
    rw [List.mem_map] at hx
    obtain ⟨y, hy, hye⟩ := hx
    have := hmb y hy
    simp only [List.map_cons, List.map_nil, List.mem_cons,
      List.not_mem_nil, or_false, hid]
    omega
  · intro m hm
    rw [List.mem_append] at hm
    rcases hm with hm | hm
    · exact Nat.lt_succ_of_lt (hmb m hm)
    · rw [List.mem_singleton] at hm
      subst hm
      rw [hid]
      exact Nat.lt_succ_self _
  · rw [List.pairwise_append]
    refine ⟨hw, by simp [List.pairwise_singleton], ?_⟩
    intro a ha b hb
    rw [List.mem_singleton] at hb
    subst hb
    exact hcourt a ha

/-- Appending a freshly-id'd non-canceled reservation that the conflict
query cleared preserves ids and the invariant. -/
theorem append_reservation_preserves (db : DB) (newR : ReservationRec)
    (hid : newR.id = db.nextId)
    (hclear : ∀ r ∈ db.reservations, r.courtId = newR.courtId →
      r.status ≠ RStatus.CANCELED →
      ¬(r.startAt < newR.endAt ∧ newR.startAt < r.endAt))
    (hids : dbIdsOk db) (hinv : noDoubleBooking db) :
    dbIdsOk { db with reservations := db.reservations ++ [newR],
                      nextId := db.nextId + 1 } ∧
    noDoubleBooking { db with reservations := db.reservations ++ [newR],
                              nextId := db.nextId + 1 } := by
  obtain ⟨hmn, hmb, hrn, hrb⟩ := hids
  obtain ⟨hw, hr⟩ := hinv
  unfold dbIdsOk noDoubleBooking
  dsimp only []
  refine ⟨⟨hmn, fun m hm => Nat.lt_succ_of_lt (hmb m hm), ?_, ?_⟩,
    hw, ?_⟩
  · rw [List.map_append, List.nodup_append]
    refine ⟨hrn, by simp, ?_⟩
    intro x hx
    rw [List.mem_map] at hx
    obtain ⟨y, hy, hye⟩ := hx
    have := hrb y hy
    simp only [List.map_cons, List.map_nil, List.mem_cons,
      List.not_mem_nil, or_false, hid]
    omega
  · intro r hr2
    rw [List.mem_append] at hr2
    rcases hr2 with hr2 | hr2
    · exact Nat.lt_succ_of_lt (hrb r hr2)
    · rw [List.mem_singleton] at hr2
      subst hr2
      rw [hid]
      exact Nat.lt_succ_self _
  · rw [List.pairwise_append]
    refine ⟨hr, by simp [List.pairwise_singleton], ?_⟩
    intro a ha b hb
    rw [List.mem_singleton] at hb
    subst hb
    intro hc hsa _
    exact hclear a ha hc hsa

/-- `POST /matches` preserves ids and the invariant. -/
theorem postMatch_preserves (db : DB) (user : UserRec) (oc : Bool)
    (c : Nat) (d : Int) (t : String) (k : MKind) (mx mn pp : Int)
    (hids : dbIdsOk db) (hinv : noDoubleBooking db) :
    dbIdsOk (postMatch db user oc c d t k mx mn pp).2 ∧
    noDoubleBooking (postMatch db user oc c d t k mx mn pp).2 := by
  unfold postMatch
  by_cases h1 : user.role = Role.owner ∨ user.role = Role.arenaOwner ∨
    user.role = Role.admin
  case neg => rw [if_pos h1]; exact ⟨hids, hinv⟩
  rw [if_neg (not_not_intro h1)]
  by_cases h2 : (db.courts.any fun x => x.id == c) = true
  case neg => rw [if_pos h2]; exact ⟨hids, hinv⟩
  rw [if_neg (not_not_intro h2)]
  by_cases h3 : user.role = Role.arenaOwner ∧ oc = false
  case pos => rw [if_pos h3]; exact ⟨hids, hinv⟩
  rw [if_neg h3]
  dsimp only []
  cases hr : findConflictReservation db c d (addMinutes d 60) with
  | some r => exact ⟨hids, hinv⟩
  | none =>
    cases hm : findConflictMatch db c d (addMinutes d 60) with
    | some x => exact ⟨hids, hinv⟩
    | none =>
      exact append_match_preserves db
        { id := db.nextId, title := t, courtId := c,
          organizerId := user.id, date := d,
          status := MStatus.SCHEDULED, kind := k, maxPlayers := mx,
          minPlayers := mn, pricePerPlayer := pp, startedAt := none,
          finishedAt := none, canceledAt := none, presences := [] } rfl
        (findConflictMatch_none db c d hm) hids hinv

/-- `POST /matches/peladas` preserves ids and the invariant. -/
theorem postPelada_preserves (db : DB) (user : UserRec) (c : Nat)
    (d : Int) (t : String) (mx mn pp : Int)
    (hids : dbIdsOk db) (hinv : noDoubleBooking db) :
    dbIdsOk (postPelada db user c d t mx mn pp).2 ∧
    noDoubleBooking (postPelada db user c d t mx mn pp).2 := by
  unfold postPelada
  by_cases h1 : (db.courts.any fun x => x.id == c) = true
  case neg => rw [if_pos h1]; exact ⟨hids, hinv⟩
  rw [if_neg (not_not_intro h1)]
  dsimp only []
  cases hr : findConflictReservation db c d (addMinutes d 60) with
  | some r => exact ⟨hids, hinv⟩
  | none =>
    cases hm : findConflictMatch db c d (addMinutes d 60) with
    | some x => exact ⟨hids, hinv⟩
    | none =>
      have hbase := append_match_preserves db
        { id := db.nextId, title := t, courtId := c,
          organizerId := user.id, date := d,
          status := MStatus.SCHEDULED, kind := MKind.PELADA,
          maxPlayers := mx, minPlayers := mn, pricePerPlayer := pp,
          startedAt := none, finishedAt := none, canceledAt := none,
          presences := [] } rfl
        (findConflictMatch_none db c d hm) hids hinv
      exact updateMatch_preserves _ _
        (fun m0 => { m0 with presences := m0.presences ++ [user.id] })
        (fun m hmem => matchUpdateSafe_row
          (fun m0 => { m0 with presences := m0.presences ++ [user.id] })
          (fun m0 => ⟨rfl, rfl, rfl⟩) _ m)
        hbase.1 hbase.2

/-- `POST /reservations` preserves ids and the invariant. -/
theorem postReservation_preserves (db : DB) (u c : Nat) (s e : Int)
    (tp : Option Int)
    (hids : dbIdsOk db) (hinv : noDoubleBooking db) :
    dbIdsOk (postReservation db u c s e tp).2 ∧
    noDoubleBooking (postReservation db u c s e tp).2 := by
  unfold postReservation
  by_cases h1 : s < e
  case neg => rw [if_pos h1]; exact ⟨hids, hinv⟩
  rw [if_neg (not_not_intro h1)]
  cases hr : findConflictReservation db c s e with
  | some r => exact ⟨hids, hinv⟩
  | none =>
    dsimp only []
    by_cases h2 : (db.courts.any fun x => x.id == c) = true
    case neg => rw [if_pos h2]; exact ⟨hids, hinv⟩
    rw [if_neg (not_not_intro h2)]
    exact append_reservation_preserves db
      { id := db.nextId, courtId := c, userId := u, startAt := s,
        endAt := e, status := RStatus.PENDING,
        paymentStatus := PayStatus.UNPAID, totalPrice := tp } rfl
      (findConflictReservation_none db c s e hr) hids hinv

/-- `POST /matches/:id/join` preserves ids and the invariant. -/
theorem joinStep_preserves (db : DB) (mid u : Nat)
    (hids : dbIdsOk db) (hinv : noDoubleBooking db) :
    dbIdsOk (joinStep db mid u) ∧ noDoubleBooking (joinStep db mid u) := by
  unfold joinStep
  cases hfind : db.matchList.find? (fun m => m.id == mid) with
  | none => exact ⟨hids, hinv⟩
  | some m =>
    dsimp only []
    have hmem : m ∈ db.matchList := List.mem_of_find?_eq_some hfind
    have hmid : m.id = mid := by
      have := List.find?_some hfind
      simpa using this
    cases hjoin : joinMatch m u with
    | statusConflict st => exact ⟨hids, hinv⟩
    | full => exact ⟨hids, hinv⟩
    | ok m2 =>
      have hfields : m2.id = m.id ∧ m2.courtId = m.courtId ∧
          m2.date = m.date := by
        unfold joinMatch at hjoin
        split_ifs at hjoin <;> cases hjoin <;> exact ⟨rfl, rfl, rfl⟩
      refine updateMatch_preserves db mid _ ?_ hids hinv
      intro x hx
      by_cases hxid : x.id = mid
      · have hxm : x = m := by
          refine List.inj_on_of_nodup_map hids.1 hx hmem ?_
          show x.id = m.id
          rw [hxid, hmid]
        subst hxm
        simp [hxid, hfields.1, hfields.2.1, hfields.2.2, hmid]
      · simp [hxid]

/-- Every reachable state has distinct fresh ids and no intra-entity
double booking. -/
theorem reachable_invariant (db : DB) (h : Reachable db) :
    dbIdsOk db ∧ noDoubleBooking db := by
  induction h with
  | init db hr hm =>
    constructor
    · unfold dbIdsOk
      rw [hr, hm]
      simp
    · unfold noDoubleBooking
      rw [hr, hm]
      simp
  | stepPostReservation db u c s e tp h ih =>
    exact postReservation_preserves db u c s e tp ih.1 ih.2
  | stepPostMatch db user oc c d t k mx mn pp h ih =>
    exact postMatch_preserves db user oc c d t k mx mn pp ih.1 ih.2
  | stepPostPelada db user c d t mx mn pp h ih =>
    exact postPelada_preserves db user c d t mx mn pp ih.1 ih.2
  | stepConfirm db id role owns h ih =>
    exact updateReservation_preserves db id _
      (fun r _ => resUpdateSafe_row _
        ((reservationHandlers_safe role owns 0).1) id r) ih.1 ih.2
  | stepPaid db id role owns h ih =>
    exact updateReservation_preserves db id _
      (fun r _ => resUpdateSafe_row _
        ((reservationHandlers_safe role owns 0).2.1) id r) ih.1 ih.2
  | stepCancelOwner db id role owns h ih =>
    exact updateReservation_preserves db id _
      (fun r _ => resUpdateSafe_row _
        ((reservationHandlers_safe role owns 0).2.2.1) id r) ih.1 ih.2
  | stepCancelSelf db id caller role h ih =>
    exact updateReservation_preserves db id _
      (fun r _ => resUpdateSafe_row _
        ((reservationHandlers_safe role false caller).2.2.2) id r)
      ih.1 ih.2
  | stepStart db id now h ih =>
    exact updateMatch_preserves db id _
      (fun m _ => matchUpdateSafe_row _ ((matchHandlers_safe now 0).1)
        id m) ih.1 ih.2
  | stepFinish db id now h ih =>
    exact updateMatch_preserves db id _
      (fun m _ => matchUpdateSafe_row _ ((matchHandlers_safe now 0).2.1)
        id m) ih.1 ih.2
  | stepCancelMatch db id now h ih =>
    exact updateMatch_preserves db id _
      (fun m _ => matchUpdateSafe_row _
        ((matchHandlers_safe now 0).2.2.1) id m) ih.1 ih.2
  | stepUncancel db id h ih =>
    exact updateMatch_preserves db id _
      (fun m _ => matchUpdateSafe_row _
        ((matchHandlers_safe 0 0).2.2.2.1) id m) ih.1 ih.2
  | stepExpire db id now h ih =>
    exact updateMatch_preserves db id _
      (fun m _ => matchUpdateSafe_row _
        ((matchHandlers_safe now 0).2.2.2.2.1) id m) ih.1 ih.2
  | stepAutoExpire db id now h ih =>
    exact updateMatch_preserves db id _
      (fun m _ => matchUpdateSafe_row _
        ((matchHandlers_safe now 0).2.2.2.2.2.1) id m) ih.1 ih.2
  | stepJoin db id u h ih =>
    exact joinStep_preserves db id u ih.1 ih.2
  | stepLeave db id u h ih =>
    exact updateMatch_preserves db id _
      (fun m _ => matchUpdateSafe_row _
        ((matchHandlers_safe 0 u).2.2.2.2.2.2) id m) ih.1 ih.2

/-- C1 (amended): in every reachable database state, the 60-minute
windows of any two matches on the same court do not overlap (any
status: even canceled matches keep blocking creation), and the
`[startAt, endAt)` intervals of any two reservations on the same court
with status ≠ CANCELED do not overlap; but a match window MAY overlap a
non-canceled reservation, because `POST /reservations` checks only
reservations — the cross-entity part of the claim fails (see the
counterexample). -/
theorem reachable_no_double_booking (db : DB) (h : Reachable db) :
    db.matchList.Pairwise matchMatchOk ∧
    db.reservations.Pairwise resResOk :=
  (reachable_invariant db h).2

/-- C1 witness: the invariant evaluated on the concrete reachable state
of the cancel-and-retry scenario. -/
theorem reachable_no_double_booking_witness :
    scenDB2.matchList.Pairwise matchMatchOk ∧
    scenDB2.reservations.Pairwise resResOk :=
  reachable_no_double_booking scenDB2
    (Reachable.stepCancelSelf scenDB1 0 9 Role.user
      (Reachable.stepPostReservation scenDB0 9 1 600 660 none
        (Reachable.init scenDB0 rfl rfl)))

/-- The database after creating a `SCHEDULED` match at 600 on court 1
and then a reservation `[630, 690)` on the same court. -/
def c1DB1 : DB :=
  (postMatch scenDB0 scenAdmin true 1 600 "" MKind.BOOKING 14 0 30).2

/-- Second step of the C1 counterexample trace. -/
def c1DB2 : DB := (postReservation c1DB1 9 1 630 690 none).2

/-- The stored match of the counterexample. -/
def c1Match : MatchRec :=
  { id := 0, title := "", courtId := 1, organizerId := 5, date := 600,
    status := MStatus.SCHEDULED, kind := MKind.BOOKING, maxPlayers := 14,
    minPlayers := 0, pricePerPlayer := 30, startedAt := none,
    finishedAt := none, canceledAt := none, presences := [] }

/-- The stored reservation of the counterexample. -/
def c1Res : ReservationRec :=
  { id := 1, courtId := 1, userId := 9, startAt := 630, endAt := 690,
    status := RStatus.PENDING, paymentStatus := PayStatus.UNPAID,
    totalPrice := none }

/-- C1 counterexample: a reachable state (create match at 600, then
`POST /reservations` at `[630, 690)` succeeds because that handler
checks no matches) holding a `SCHEDULED` match whose 60-minute window
overlaps a `PENDING` reservation on the same court. -/
theorem match_reservation_overlap_counterexample :
    Reachable c1DB2 ∧
    c1DB2.matchList = [c1Match] ∧
    c1DB2.reservations = [c1Res] ∧
    c1Match.status = MStatus.SCHEDULED ∧
    c1Res.status = RStatus.PENDING ∧
    c1Match.courtId = c1Res.courtId ∧
    c1Res.startAt < c1Match.date + 60 ∧ c1Match.date < c1Res.endAt := by
  refine ⟨?_, by decide, by decide, by decide, by decide, by decide,
    by decide, by decide⟩
  exact Reachable.stepPostReservation c1DB1 9 1 630 690 none
    (Reachable.stepPostMatch scenDB0 scenAdmin true 1 600 ""
      MKind.BOOKING 14 0 30 (Reachable.init scenDB0 rfl rfl))

end Bolafut
